import Mathlib

/-!
# Verification of the Rent-Prices-Toronto crawler (`scripts/scraper.py`)

Shallow embedding of the crawler in `src/Rent-Prices-Toronto/scripts/scraper.py`
and proofs about its behaviour.  Machinery:

* a matcher for the exact regular-expression subset used by the six
  detail-field patterns (literal characters, `[0-9]`, `.`, `*`, `+`, one
  capture group), with Python `re.search` semantics: leftmost starting
  position, greedy quantifiers with backtracking, `.` not matching a newline;
* a Python-value model (`PyVal`) with Python subscript semantics
  (`KeyError` / `IndexError` / `TypeError`) for the JSON-LD summary chain;
* the per-listing and per-page control flow of `build_rental_datasets`,
  with uncaught Python exceptions modelled by `Except`;
* the pandas `DataFrame(rows).to_csv` header: columns in first-appearance
  order of the row dict keys.
-/

set_option autoImplicit false
set_option maxRecDepth 100000

namespace Scraper

/-! ## Regular-expression subset

The six patterns in `build_rental_datasets` (scraper.py lines 111-118) all
have the shape: literal run, then a single capture group built from the
atoms `[0-9]`, `\.`, `0`, `.`, `*`, `+`, then a literal run. -/

/-- Character classes appearing in the six patterns: `[0-9]` and `.`
(Python `.` without `DOTALL` matches anything except a newline). -/
inductive CharCls
  | digit
  | dotAny
  deriving DecidableEq

def CharCls.mem : CharCls → Char → Bool
  | .digit, c => c.isDigit
  | .dotAny, c => c != '\n'

/-- One element of a capture-group body: a literal character, a single
character of a class, or a greedy `*` / `+` repetition of a class. -/
inductive RElem
  | lit (c : Char)
  | one (k : CharCls)
  | star (k : CharCls)
  | plus (k : CharCls)
  deriving DecidableEq

/-- A pattern `pre(body)suf` with literal runs around one capture group. -/
structure RPattern where
  pre : List Char
  body : List RElem
  suf : List Char
  deriving DecidableEq

/-- `n, n-1, ..., 0`: candidate repetition counts in greedy priority order. -/
def downFrom : Nat → List Nat
  | 0 => [0]
  | n + 1 => (n + 1) :: downFrom n

/-- Length of the maximal run of characters of class `k` at the head. -/
def maxRun (k : CharCls) (cs : List Char) : Nat :=
  (cs.takeWhile k.mem).length

/-- All lengths of text that the body can consume at the head of `cs`,
in backtracking priority order (greedy quantifiers try longest first). -/
def bodyCands : List RElem → List Char → List Nat
  | [], _ => [0]
  | .lit _ :: _, [] => []
  | .lit c :: es, x :: cs => if x = c then (bodyCands es cs).map (· + 1) else []
  | .one _ :: _, [] => []
  | .one k :: es, x :: cs => if k.mem x then (bodyCands es cs).map (· + 1) else []
  | .star k :: es, cs =>
      (downFrom (maxRun k cs)).flatMap fun n => (bodyCands es (cs.drop n)).map (· + n)
  | .plus k :: es, cs =>
      ((downFrom (maxRun k cs)).filter (fun n => 0 < n)).flatMap fun n =>
        (bodyCands es (cs.drop n)).map (· + n)

/-- Strip a literal run from the head, or fail. -/
def dropLits : List Char → List Char → Option (List Char)
  | [], cs => some cs
  | _ :: _, [] => none
  | l :: ls, c :: cs => if c = l then dropLits ls cs else none

/-- Does the literal run occur at the head of `cs`? -/
def litsLeading : List Char → List Char → Bool
  | [], _ => true
  | _ :: _, [] => false
  | l :: ls, c :: cs => c == l && litsLeading ls cs

/-- Match the pattern at this exact position; on success return the text
captured by the group (first candidate in backtracking order such that the
literal suffix follows). -/
def matchAtPos (p : RPattern) (cs : List Char) : Option (List Char) :=
  match dropLits p.pre cs with
  | none => none
  | some cs1 =>
    match (bodyCands p.body cs1).find? (fun n => litsLeading p.suf (cs1.drop n)) with
    | none => none
    | some n => some (cs1.take n)

/-- `re.search(pat, text).group(1)` as an `Option`: try each start position
left to right (Python `re.search` returns the leftmost match); `none` models
`re.search` returning `None` (so that `.group(1)` raises `AttributeError`). -/
def searchCapture (p : RPattern) : List Char → Option (List Char)
  | [] => matchAtPos p []
  | c :: cs =>
    match matchAtPos p (c :: cs) with
    | some r => some r
    | none => searchCapture p cs

def litStr (s : String) : List Char := s.data

/-! The six detail-field patterns, scraper.py lines 111-118. -/

/-- `'"beds": ([0-9]\.0)'` -/
def bedsPat : RPattern := ⟨litStr "\"beds\": ", [.one .digit, .lit '.', .lit '0'], []⟩

/-- `'"baths": ([0-9]\.0)'` -/
def bathsPat : RPattern := ⟨litStr "\"baths\": ", [.one .digit, .lit '.', .lit '0'], []⟩

/-- `'"dimensions": ([0-9]*\.0)'` -/
def sqftPat : RPattern := ⟨litStr "\"dimensions\": ", [.star .digit, .lit '.', .lit '0'], []⟩

/-- `'"description_text": "(.*)", "description_blurb"'` -/
def descPat : RPattern :=
  ⟨litStr "\"description_text\": \"", [.star .dotAny], litStr "\", \"description_blurb\""⟩

/-- `'"answer": ([0-9]+), "answer_label": "Year Built"'` -/
def yearPat : RPattern :=
  ⟨litStr "\"answer\": ", [.plus .digit], litStr ", \"answer_label\": \"Year Built\""⟩

/-- `'"answer": "(.+)", "answer_label": "Parking Spots"'` -/
def parkingPat : RPattern :=
  ⟨litStr "\"answer\": \"", [.plus .dotAny], litStr "\", \"answer_label\": \"Parking Spots\""⟩

/-- The `regex` dict of scraper.py lines 111-118, in Python 3.7+ dict
insertion order (the order `for pattern in regex` iterates). -/
def detailRegex : List (String × RPattern) :=
  [("bedrooms", bedsPat), ("bathrooms", bathsPat), ("sqft", sqftPat),
   ("description_text", descPat), ("year_built", yearPat), ("parking_spots", parkingPat)]

/-- The extraction loop of scraper.py lines 120-122:

```
with contextlib.suppress(AttributeError, IndexError):
    for pattern in regex:
        features[pattern] = re.search(regex[pattern], text).group(1)
```

The `suppress` block wraps the whole `for` loop, so the first failed
`re.search` (whose `.group(1)` raises `AttributeError`) aborts the loop:
later patterns are not tried.  Fields assigned before the failure stay in
`features`. -/
def extractLoop (text : List Char) : List (String × RPattern) → List (String × List Char)
  | [] => []
  | (n, p) :: rest =>
    match searchCapture p text with
    | some v => (n, v) :: extractLoop text rest
    | none => []

/-- Detail-field extraction over the second script payload. -/
def extractDetailFeatures (text : List Char) : List (String × List Char) :=
  extractLoop text detailRegex

/-- First value bound to a key in a features list (Python dict lookup;
keys here are assigned at most once). -/
def lookupField (k : String) (feats : List (String × List Char)) : Option (List Char) :=
  (feats.find? (fun kv => kv.1 == k)).map (·.2)

/-! ## Python values and exceptions -/

/-- The Python exceptions that can arise in `build_rental_datasets`. -/
inductive PyErr
  | keyError
  | indexError
  | typeError
  | jsonDecodeError
  deriving DecidableEq

/-- A Python value as produced by `json.loads` (numbers split into int and
float as Python does). -/
inductive PyVal
  | str (s : String)
  | int (n : Int)
  | float (q : ℚ)
  | bool (b : Bool)
  | null
  | arr (xs : List PyVal)
  | obj (kvs : List (String × PyVal))

def lookupKey (kvs : List (String × PyVal)) (k : String) : Option PyVal :=
  (kvs.find? (fun kv => kv.1 == k)).map (·.2)

/-- Python subscript `v[k]` with a string key: dict lookup raising
`KeyError` on a missing key, `TypeError` on a non-dict. -/
def getKey : PyVal → String → Except PyErr PyVal
  | .obj kvs, k =>
    match lookupKey kvs k with
    | some v => .ok v
    | none => .error .keyError
  | _, _ => .error .typeError

/-- Python subscript `v[i]` with a non-negative integer index: list/str
indexing raising `IndexError` out of range, dict raising `KeyError` (an
integer key is absent from these string-keyed objects), `TypeError`
otherwise. -/
def getIdx : PyVal → Nat → Except PyErr PyVal
  | .arr xs, i =>
    match xs.get? i with
    | some v => .ok v
    | none => .error .indexError
  | .obj _, _ => .error .keyError
  | .str s, i =>
    match s.data.get? i with
    | some c => .ok (.str (String.mk [c]))
    | none => .error .indexError
  | _, _ => .error .typeError

/-! ## Listing-summary extraction (scraper.py lines 83-90)

```
with contextlib.suppress(KeyError):
    features['street_address'] = dct['name']
    features['city'] = dct['containedInPlace']['name']
    features['postal_code'] = dct['address']['postalCode']
    features['price'] = dct['containsPlace'][0]['potentialAction']['priceSpecification']['price']
    features['longitude'] = dct['geo']['longitude']
    features['latitude'] = dct['geo']['latitude']
    features['rental_type'] = dct['containsPlace'][0]['@type']
```
-/

/-- The seven assignments, in source order, each as the lookup chain on the
JSON-LD object. -/
def summarySteps : List (String × (PyVal → Except PyErr PyVal)) :=
  [("street_address", fun d => getKey d "name"),
   ("city", fun d => getKey d "containedInPlace" >>= fun v => getKey v "name"),
   ("postal_code", fun d => getKey d "address" >>= fun v => getKey v "postalCode"),
   ("price", fun d =>
     getKey d "containsPlace" >>= fun v => getIdx v 0 >>= fun v =>
       getKey v "potentialAction" >>= fun v =>
         getKey v "priceSpecification" >>= fun v => getKey v "price"),
   ("longitude", fun d => getKey d "geo" >>= fun v => getKey v "longitude"),
   ("latitude", fun d => getKey d "geo" >>= fun v => getKey v "latitude"),
   ("rental_type", fun d =>
     getKey d "containsPlace" >>= fun v => getIdx v 0 >>= fun v => getKey v "@type")]

/-- Run assignments sequentially inside `contextlib.suppress(KeyError)`:
a `KeyError` stops the block but keeps the assignments already made
(`suppress` does not roll the dict back); any other exception propagates. -/
def runSuppressKeyError (d : PyVal) (acc : List (String × PyVal)) :
    List (String × (PyVal → Except PyErr PyVal)) → Except PyErr (List (String × PyVal))
  | [] => .ok acc
  | (n, f) :: rest =>
    match f d with
    | .ok v => runSuppressKeyError d (acc ++ [(n, v)]) rest
    | .error .keyError => .ok acc
    | .error e => .error e

/-- The summary-extraction block applied to one JSON-LD object. -/
def extractSummary (d : PyVal) : Except PyErr (List (String × PyVal)) :=
  runSuppressKeyError d [] summarySteps

/-! ## Detail-page payload selection (scraper.py lines 107-108)

```
text = tree.xpath('//script[@type="text/javascript"]/text()')
text = text[1].replace('\n', '').strip()
```
-/

/-- Python `str.strip()` whitespace characters. -/
def isPyWhitespace (c : Char) : Bool :=
  c == ' ' || c == '\t' || c == '\n' || c == '\r' || c == Char.ofNat 11 || c == Char.ofNat 12

/-- Python `str.strip()` on a character list. -/
def pyStrip (cs : List Char) : List Char :=
  ((cs.dropWhile isPyWhitespace).reverse.dropWhile isPyWhitespace).reverse

/-- `text[1].replace('\n', '').strip()` over the list of text/javascript
script-block texts: `text[1]` raises `IndexError` when the page has fewer
than two such blocks, and that exception is not caught anywhere in
`build_rental_datasets`. -/
def secondScript (scripts : List String) : Except PyErr (List Char) :=
  match scripts.get? 1 with
  | none => .error .indexError
  | some s => .ok (pyStrip (s.data.filter (fun c => c != '\n')))

/-- Per-listing processing (scraper.py lines 79-124), network and logging
aside: summary extraction from the JSON-LD object, then the detail payload
(`scripts` = the text/javascript block texts of the fetched detail page),
then the regex loop; the record appended to `rows` is the features dict,
summary fields first (detail keys are disjoint from summary keys, so the
dict is the concatenation). An uncaught exception is an `.error`. -/
def processListing (dct : PyVal) (scripts : List String) :
    Except PyErr (List (String × PyVal)) :=
  match extractSummary dct with
  | .error e => .error e
  | .ok feats =>
    match secondScript scripts with
    | .error e => .error e
    | .ok text =>
      .ok (feats ++ (extractDetailFeatures text).map (fun kv => (kv.1, PyVal.str (String.mk kv.2))))

/-! ## JSON-LD harvesting on a listing page (scraper.py lines 72-77)

```
ads = tree.xpath('//script[@type="application/ld+json"]/text()')
ads_text = [str(element).strip().replace('\n', '') for element in ads]
data = [json.loads(json_text) for json_text in ads_text]
data = [dct for dct in data if 'url' in dct]
```

`json.loads` is Python stdlib; a block is represented by its parse outcome
(`.error .jsonDecodeError` for a block whose text is not valid JSON). -/

/-- The `json.loads` list comprehension: the first failing block raises and
nothing after it is parsed. -/
def loadAds : List (Except PyErr PyVal) → Except PyErr (List PyVal)
  | [] => .ok []
  | b :: rest => b >>= fun d => loadAds rest >>= fun ds => .ok (d :: ds)

/-- Python `'url' in dct`: key test on a dict, element test on a list,
substring test on a str, `TypeError` on non-iterables. -/
def pyContainsStr (v : PyVal) (k : String) : Except PyErr Bool :=
  match v with
  | .obj kvs => .ok (lookupKey kvs k).isSome
  | .arr xs => .ok (xs.any (fun x => match x with | .str s => s == k | _ => false))
  | .str s => .ok ((List.range (s.data.length + 1)).any (fun i => litsLeading k.data (s.data.drop i)))
  | _ => .error .typeError

/-- Is the parsed value a dict carrying a `url` key?  (What the filtering
comprehension tests when every parsed block is a JSON object.) -/
def hasUrlKey : PyVal → Bool
  | .obj kvs => (lookupKey kvs "url").isSome
  | _ => false

/-- The filtering comprehension `[dct for dct in data if 'url' in dct]`. -/
def filterAds : List PyVal → Except PyErr (List PyVal)
  | [] => .ok []
  | d :: rest =>
    pyContainsStr d "url" >>= fun b =>
      filterAds rest >>= fun r => .ok (if b then d :: r else r)

/-- Lines 72-77 as one stage: parse every block, then keep the objects
containing a `url` key. -/
def adsStage (blocks : List (Except PyErr PyVal)) : Except PyErr (List PyVal) :=
  loadAds blocks >>= filterAds

/-! ## Fetching, logging and page-level control flow -/

/-- A raised `requests` exception (transport-level failure). -/
inductive TransportFailure
  | connectionError
  | timeout
  | dnsFailure
  deriving DecidableEq

/-- A `requests` response, reduced to status code and (already parsed)
body. -/
structure HttpResponse (Body : Type) where
  status : Nat
  content : Body

/-- `"Time: {} | Code: {} | url: {}\n"` (scraper.py lines 60 and 99, the
request log). -/
def requestLogLine (time : String) (code : Nat) (url : String) : String :=
  "Time: " ++ time ++ " | Code: " ++ toString code ++ " | url: " ++ url ++ "\n"

/-- `"Time: {} | Code : {} | url: {}\n"` (scraper.py line 66, the error
log). -/
def errorLogLine (time : String) (code : Nat) (url : String) : String :=
  "Time: " ++ time ++ " | Code : " ++ toString code ++ " | url: " ++ url ++ "\n"

/-- Listing-page fetch handling (scraper.py lines 47-69): a raised
transport exception propagates (nothing is logged, the run dies); on a
response, one request-log line is always appended, and on status other
than 200 one error-log line is appended and the page is skipped
(`continue`).  Result on success: (request-log lines, error-log lines,
skipped?). -/
def pageFetchStep {B : Type} (resp : Except TransportFailure (HttpResponse B))
    (time url : String) : Except TransportFailure (List String × List String × Bool) :=
  match resp with
  | .error e => .error e
  | .ok r =>
    .ok ([requestLogLine time r.status url],
         if r.status != 200 then [errorLogLine time r.status url] else [],
         r.status != 200)

/-- Detail-page fetch handling (scraper.py lines 93-108): a raised
transport exception propagates; on a response, one request-log line is
appended, no status check is made, no error-log line is ever written, and
the body is parsed regardless of status (skipped? is always `false`). -/
def detailFetchStep {B : Type} (resp : Except TransportFailure (HttpResponse B))
    (time url : String) : Except TransportFailure (List String × List String × Bool) :=
  match resp with
  | .error e => .error e
  | .ok r => .ok ([requestLogLine time r.status url], [], false)

/-! ## Dataset sink (scraper.py lines 126-128)

```
df = pd.DataFrame(rows)
df.to_csv("../data/toronto_apartment_rentals_2020.csv", index=False)
```
-/

/-- Append the keys of one row dict that have not been seen yet, in the
dict's insertion order. -/
def addKeys (acc : List String) (row : List (String × PyVal)) : List String :=
  row.foldl (fun a kv => if kv.1 ∈ a then a else a ++ [kv.1]) acc

/-- Column order of `pd.DataFrame(rows)` for a list of dict rows: the keys
in first-appearance order, scanning the rows in order.  A run with zero
rows yields a DataFrame with no columns at all. -/
def dfColumns (rows : List (List (String × PyVal))) : List String :=
  rows.foldl addKeys []

/-- The header line written by `df.to_csv(..., index=False)`. -/
def csvHeader (rows : List (List (String × PyVal))) : String :=
  String.intercalate "," (dfColumns rows)

/-- `pages = range(1, num_pages+1)` (scraper.py line 43). -/
def pagesOf (numPages : Nat) : List Nat := List.range' 1 numPages

/-- The whole-run record assembly over the per-listing inputs the network
would deliver: `rows` accumulates one features dict per listing; an
uncaught exception anywhere aborts the run with no rows stored. -/
def runRows : List (PyVal × List String) → Except PyErr (List (List (String × PyVal)))
  | [] => .ok []
  | p :: rest =>
    processListing p.1 p.2 >>= fun row => runRows rest >>= fun rows => .ok (row :: rows)

/-! ## Rate governor -/

/-- Modelled from the spec: the Rate Governor of §4.1 is implemented by the
third-party `ratelimit` decorators on `make_get_request` (scraper.py lines
14-15), whose source is not part of this repository.  Per the spec,
`acquire()` blocks until at least `interval` has elapsed since the previous
grant, then grants; given the previous grant time and the request times of
the remaining calls it yields the successive grant times. -/
def grantAux (interval last : ℚ) : List ℚ → List ℚ
  | [] => []
  | r :: rs => max r (last + interval) :: grantAux interval (max r (last + interval)) rs

/-- Modelled from the spec: grant times of a sequence of governed calls,
the first call granted at its request time (no previous grant to wait
on). -/
def grantTimes (interval : ℚ) : List ℚ → List ℚ
  | [] => []
  | r :: rs => r :: grantAux interval r rs

end Scraper

namespace Scraper

/-- A JSON-LD listing object carrying every key of the summary chain. -/
def fullDct : PyVal :=
  .obj [("name", .str "123 Main St"),
        ("containedInPlace", .obj [("name", .str "Toronto")]),
        ("address", .obj [("postalCode", .str "M5V 1A1")]),
        ("containsPlace",
          .arr [.obj [("potentialAction",
                        .obj [("priceSpecification", .obj [("price", .int 2000)])]),
                      ("@type", .str "Apartment")]]),
        ("geo", .obj [("longitude", .float (-79)), ("latitude", .float 43)]),
        ("url", .str "https://rentals.ca/toronto/x")]

/-- A detail payload on which all six patterns match. -/
def fullText : String :=
  "\"beds\": 2.0, \"baths\": 1.0, \"dimensions\": 700.0, \"description_text\": \"Nice place\", \"description_blurb\": \"x\", \"answer\": 1995, \"answer_label\": \"Year Built\", \"answer\": \"1\", \"answer_label\": \"Parking Spots\""

/-- A JSON-LD listing object with a `url` and a `name` but nothing else:
the `city` lookup chain is the first to raise `KeyError`. -/
def partialDct : PyVal := .obj [("url", .str "u"), ("name", .str "A")]

/-- The column order the spec asserts for the output header. -/
def claimedHeader : String :=
  "price,street_address,city,postal_code,longitude,latitude,rental_type,bedrooms,bathrooms,sqft,year_built,parking_spots,description_text"

/-- Number of summary fields extracted from one JSON-LD object (0 when the
block raised an uncaught exception). -/
def summaryFieldCount (d : PyVal) : Nat :=
  match extractSummary d with
  | .ok l => l.length
  | .error _ => 0

end Scraper

namespace Scraper

/-! ## Helper lemmas -/

theorem extractLoop_eq_takeWhile (text : List Char) (ps : List (String × RPattern)) :
    extractLoop text ps =
      (ps.takeWhile (fun np => (searchCapture np.2 text).isSome)).filterMap
        (fun np => (searchCapture np.2 text).map (fun v => (np.1, v))) := by
  induction ps with
  | nil => rfl
  | cons hd tl ih =>
    obtain ⟨n, p⟩ := hd
    cases h : searchCapture p text with
    | none => simp [extractLoop, List.takeWhile, h]
    | some v => simp [extractLoop, List.takeWhile, h, ih]

theorem loadAds_map_ok (ds : List PyVal) : loadAds (ds.map Except.ok) = Except.ok ds := by
  induction ds with
  | nil => rfl
  | cons d rest ih => simp [loadAds, ih]; rfl

theorem loadAds_first_error (pre : List PyVal) (e : PyErr) (suf : List (Except PyErr PyVal)) :
    loadAds (pre.map Except.ok ++ Except.error e :: suf) = Except.error e := by
  induction pre with
  | nil => rfl
  | cons d rest ih => simp [loadAds, ih]; rfl

theorem filterAds_obj (ds : List (List (String × PyVal))) :
    filterAds (ds.map PyVal.obj) = Except.ok ((ds.map PyVal.obj).filter hasUrlKey) := by
  induction ds with
  | nil => rfl
  | cons kvs rest ih =>
    simp [filterAds, pyContainsStr, ih, List.filter_cons, hasUrlKey]
    rfl

theorem runSuppress_pre (d : PyVal) (acc : List (String × PyVal))
    (pre post : List (String × (PyVal → Except PyErr PyVal)))
    (hpre : ∀ s ∈ pre, ∃ v, s.2 d = Except.ok v) :
    runSuppressKeyError d acc (pre ++ post) =
      runSuppressKeyError d
        (acc ++ pre.filterMap (fun s => (s.2 d).toOption.map (fun v => (s.1, v)))) post := by
  induction pre generalizing acc with
  | nil => simp
  | cons s rest ih =>
    obtain ⟨v, hv⟩ := hpre s (by simp)
    obtain ⟨n, f⟩ := s
    simp only at hv
    have hL : runSuppressKeyError d acc (((n, f) :: rest) ++ post) =
        runSuppressKeyError d (acc ++ [(n, v)]) (rest ++ post) := by
      simp [runSuppressKeyError, hv]
    rw [hL, ih _ (fun s hs => hpre s (by simp [hs]))]
    simp [hv, Except.toOption, List.filterMap_cons, List.append_assoc]

theorem grantAux_length (interval last : ℚ) (rs : List ℚ) :
    (grantAux interval last rs).length = rs.length := by
  induction rs generalizing last with
  | nil => rfl
  | cons r rs ih => simp [grantAux, ih]

theorem grantAux_chain (interval last : ℚ) (rs : List ℚ) :
    List.Chain' (fun a b => a + interval ≤ b) (last :: grantAux interval last rs) := by
  induction rs generalizing last with
  | nil => exact List.chain'_singleton last
  | cons r rs ih =>
    simp only [grantAux]
    exact List.chain'_cons.mpr ⟨le_max_right _ _, ih _⟩

theorem grantAux_ge (interval last : ℚ) (rs : List ℚ) :
    List.Forall₂ (fun r g => r ≤ g) rs (grantAux interval last rs) := by
  induction rs generalizing last with
  | nil => exact List.Forall₂.nil
  | cons r rs ih => exact List.Forall₂.cons (le_max_left _ _) (ih _)

theorem secondScript_short (scripts : List String) (h : scripts.length < 2) :
    secondScript scripts = .error .indexError := by
  unfold secondScript
  rw [List.get?_eq_none.mpr (by omega)]

theorem bodyCands_ddz : ∀ (cs : List Char) (n : Nat),
    n ∈ bodyCands [RElem.one CharCls.digit, RElem.lit '.', RElem.lit '0'] cs →
    n = 3 ∧ ∃ c cs3, cs = c :: '.' :: '0' :: cs3 ∧ CharCls.mem CharCls.digit c = true
  | [], n, h => by simp [bodyCands] at h
  | [c], n, h => by
    by_cases hc : CharCls.mem CharCls.digit c = true <;> simp [bodyCands, hc] at h
  | [c, x], n, h => by
    by_cases hc : CharCls.mem CharCls.digit c = true <;>
      by_cases hx : x = '.' <;> simp [bodyCands, hc, hx] at h
  | c :: x :: y :: cs3, n, h => by
    by_cases hc : CharCls.mem CharCls.digit c = true
    · by_cases hx : x = '.'
      · by_cases hy : y = '0'
        · subst hx; subst hy
          simp [bodyCands, hc] at h
          exact ⟨h, c, cs3, rfl, hc⟩
        · subst hx
          simp [bodyCands, hc, hy] at h
      · simp [bodyCands, hc, hx] at h
    · simp [bodyCands, hc] at h

theorem matchAtPos_ddz (pre cs v : List Char)
    (h : matchAtPos ⟨pre, [RElem.one CharCls.digit, RElem.lit '.', RElem.lit '0'], []⟩ cs
           = some v) :
    ∃ c, CharCls.mem CharCls.digit c = true ∧ v = [c, '.', '0'] := by
  unfold matchAtPos at h
  cases hd : dropLits pre cs with
  | none => rw [hd] at h; simp at h
  | some cs1 =>
    rw [hd] at h
    dsimp only at h
    cases hf : (bodyCands [RElem.one CharCls.digit, RElem.lit '.', RElem.lit '0'] cs1).find?
        (fun n => litsLeading [] (cs1.drop n)) with
    | none => rw [hf] at h; simp at h
    | some n =>
      rw [hf] at h
      simp only [Option.some.injEq] at h
      obtain ⟨h3, c, cs3, hcs, hc⟩ := bodyCands_ddz cs1 n (List.mem_of_find?_eq_some hf)
      subst h3; subst hcs
      exact ⟨c, hc, by rw [← h]; rfl⟩

theorem searchCapture_ddz (pre : List Char) : ∀ (text v : List Char),
    searchCapture ⟨pre, [RElem.one CharCls.digit, RElem.lit '.', RElem.lit '0'], []⟩ text
      = some v →
    ∃ c, CharCls.mem CharCls.digit c = true ∧ v = [c, '.', '0']
  | [], v, h => matchAtPos_ddz pre [] v (by simpa [searchCapture] using h)
  | c :: cs, v, h => by
    unfold searchCapture at h
    cases hm : matchAtPos ⟨pre, [RElem.one CharCls.digit, RElem.lit '.', RElem.lit '0'], []⟩
        (c :: cs) with
    | some r =>
      rw [hm] at h
      simp only [Option.some.injEq] at h
      exact h ▸ matchAtPos_ddz pre (c :: cs) r hm
    | none =>
      rw [hm] at h
      exact searchCapture_ddz pre cs v h

theorem mem_addKeys (k : String) (acc : List String) (row : List (String × PyVal)) :
    k ∈ addKeys acc row ↔ k ∈ acc ∨ ∃ kv ∈ row, kv.1 = k := by
  induction row generalizing acc with
  | nil => simp [addKeys]
  | cons kv rest ih =>
    have hstep : addKeys acc (kv :: rest) =
        addKeys (if kv.1 ∈ acc then acc else acc ++ [kv.1]) rest := by
      simp [addKeys]
    rw [hstep]
    by_cases h : kv.1 ∈ acc
    · rw [if_pos h, ih]
      constructor
      · rintro (hk | ⟨x, hx, hxk⟩)
        · exact Or.inl hk
        · exact Or.inr ⟨x, List.mem_cons_of_mem _ hx, hxk⟩
      · rintro (hk | ⟨x, hx, hxk⟩)
        · exact Or.inl hk
        · rcases List.mem_cons.mp hx with rfl | hx'
          · exact Or.inl (hxk ▸ h)
          · exact Or.inr ⟨x, hx', hxk⟩
    · rw [if_neg h, ih]
      simp only [List.mem_append, List.mem_cons, List.not_mem_nil, or_false]
      constructor
      · rintro ((hk | rfl) | ⟨x, hx, hxk⟩)
        · exact Or.inl hk
        · exact Or.inr ⟨kv, Or.inl rfl, rfl⟩
        · exact Or.inr ⟨x, Or.inr hx, hxk⟩
      · rintro (hk | ⟨x, hx, hxk⟩)
        · exact Or.inl (Or.inl hk)
        · rcases hx with rfl | hx'
          · exact Or.inl (Or.inr hxk.symm)
          · exact Or.inr ⟨x, hx', hxk⟩

theorem mem_foldl_addKeys (k : String) (rows : List (List (String × PyVal))) :
    ∀ acc, k ∈ rows.foldl addKeys acc ↔
      k ∈ acc ∨ ∃ row ∈ rows, ∃ kv ∈ row, kv.1 = k := by
  induction rows with
  | nil => intro acc; simp
  | cons row rest ih =>
    intro acc
    simp only [List.foldl_cons]
    rw [ih, mem_addKeys]
    constructor
    · rintro ((hk | hrow) | ⟨r, hr, hkv⟩)
      · exact Or.inl hk
      · exact Or.inr ⟨row, by simp, hrow⟩
      · exact Or.inr ⟨r, List.mem_cons_of_mem _ hr, hkv⟩
    · rintro (hk | ⟨r, hr, hkv⟩)
      · exact Or.inl (Or.inl hk)
      · rcases List.mem_cons.mp hr with rfl | hr'
        · exact Or.inl (Or.inr hkv)
        · exact Or.inr ⟨r, hr', hkv⟩

end Scraper

namespace Scraper

/-! ## Claims -/

/-- C1 (counterexample): on the payload `"baths": 2.0` the bedrooms pattern
(first in the loop) does not match while the bathrooms pattern does — yet
the resulting `DetailFields` is empty and in particular has no `bathrooms`
entry, so the six matches are not independent. -/
theorem detail_fields_not_independent_cex :
    searchCapture bedsPat (litStr "\"baths\": 2.0") = none ∧
    searchCapture bathsPat (litStr "\"baths\": 2.0") = some (litStr "2.0") ∧
    extractDetailFeatures (litStr "\"baths\": 2.0") = [] ∧
    lookupField "bathrooms" (extractDetailFeatures (litStr "\"baths\": 2.0")) = none :=
  ⟨rfl, rfl, rfl, rfl⟩

/-- C1 (amended): the `contextlib.suppress` block wraps the whole `for`
loop, so detail extraction is sequential with first-failure abort: the
fields present in `DetailFields` are exactly those of the longest prefix of
the pattern order (bedrooms, bathrooms, sqft, description_text, year_built,
parking_spots) whose patterns all match; a single pattern miss leaves that
field and every later field absent, while the earlier matched fields are
kept. -/
theorem detail_extraction_stops_at_first_pattern_miss (text : List Char) :
    extractDetailFeatures text =
      (detailRegex.takeWhile (fun np => (searchCapture np.2 text).isSome)).filterMap
        (fun np => (searchCapture np.2 text).map (fun v => (np.1, v))) :=
  extractLoop_eq_takeWhile text detailRegex

/-- C2 (counterexample): a detail page with only one text/javascript script
block makes `text[1]` raise `IndexError`, which nothing in
`build_rental_datasets` catches: no record is appended for the listing, and
a run containing such a listing aborts before any later listing is
processed. -/
theorem missing_second_script_block_cex :
    processListing fullDct ["window.x = 1;"] = .error .indexError ∧
    runRows [(fullDct, ["window.x = 1;"]), (fullDct, ["window.x = 1;", fullText])]
      = .error .indexError :=
  ⟨rfl, rfl⟩

/-- C2 (amended): for a listing whose summary extraction completed, a detail
page with fewer than two text/javascript script blocks raises an uncaught
`IndexError` at `text[1]`: `extract` does not return an empty
`DetailFields`, no record is appended, and the listing-level condition
escalates to run-level failure. -/
theorem missing_second_script_is_run_fatal (dct : PyVal) (scripts : List String)
    (feats : List (String × PyVal)) (hs : extractSummary dct = .ok feats)
    (h : scripts.length < 2) :
    processListing dct scripts = .error .indexError := by
  unfold processListing
  rw [hs, secondScript_short scripts h]

/-- C2 (witness): the amended claim at a concrete listing with an empty
script list. -/
theorem missing_second_script_is_run_fatal_witness :
    processListing partialDct [] = .error .indexError :=
  missing_second_script_is_run_fatal partialDct [] [("street_address", PyVal.str "A")]
    rfl (by decide)

/-- C3 (counterexample): a raised transport exception (here a timeout)
propagates out of the page-fetch step — nothing is logged and the run
terminates — unlike a non-2xx response, which logs and lets the run
continue. -/
theorem transport_failure_cex :
    @pageFetchStep Unit (.error .timeout) "t" "u" = .error .timeout ∧
    @pageFetchStep Unit (.ok ⟨500, ()⟩) "t" "u"
      = .ok ([requestLogLine "t" 500 "u"], [errorLogLine "t" 500 "u"], true) :=
  ⟨rfl, rfl⟩

/-- C3 (amended): `make_get_request` wraps `requests.get` with no exception
handling, so a transport-level failure is not treated like a non-2xx
response: the exception propagates through both the listing-page and
detail-page fetch sites, no sentinel status is recorded in any log, no
bodyless outcome is produced, and the run terminates instead of
continuing. -/
theorem transport_failure_propagates_unlogged (B : Type) (e : TransportFailure)
    (t u : String) :
    @pageFetchStep B (.error e) t u = .error e ∧
    @detailFetchStep B (.error e) t u = .error e :=
  ⟨rfl, rfl⟩

/-- C4 (counterexample): one malformed JSON-LD block makes the
`json.loads` comprehension raise `JSONDecodeError`, so the remaining block
(a valid listing object) is never processed and the error escalates rather
than being silently discarded. -/
theorem malformed_jsonld_cex :
    adsStage [Except.error PyErr.jsonDecodeError, Except.ok fullDct]
      = .error .jsonDecodeError :=
  rfl

/-- C4 (amended): a parsed JSON-LD object lacking a `url` key is silently
discarded (no log line, no exception) and the remaining objects are still
processed; but a block that fails to parse as JSON raises an uncaught
`JSONDecodeError` that aborts the whole page — and run — before any object
of that page is processed. -/
theorem jsonld_url_filter_and_malformed_fatal :
    (∀ ds : List (List (String × PyVal)),
        adsStage ((ds.map PyVal.obj).map Except.ok)
          = .ok ((ds.map PyVal.obj).filter hasUrlKey)) ∧
    (∀ (pre : List PyVal) (e : PyErr) (suf : List (Except PyErr PyVal)),
        adsStage (pre.map Except.ok ++ Except.error e :: suf) = .error e) := by
  constructor
  · intro ds
    show loadAds ((ds.map PyVal.obj).map Except.ok) >>= filterAds = _
    rw [loadAds_map_ok]
    exact filterAds_obj ds
  · intro pre e suf
    show loadAds (pre.map Except.ok ++ Except.error e :: suf) >>= filterAds = _
    rw [loadAds_first_error]
    rfl

/-- C5 (counterexample): a JSON-LD object with a `name` but no
`containedInPlace` yields a summary with exactly one field
(`street_address`) — neither all seven nor none, so extraction is not
all-or-nothing. -/
theorem summary_not_all_or_nothing_cex :
    extractSummary partialDct = .ok [("street_address", PyVal.str "A")] ∧
    ¬(summaryFieldCount partialDct = 0 ∨ summaryFieldCount partialDct = 7) :=
  ⟨rfl, by decide⟩

/-- C5 (amended): `contextlib.suppress(KeyError)` stops the assignment block
at the first missing nested key but does not roll back the dict: the fields
assigned before the failing lookup are retained, and only the failing field
and those after it are absent (the `url` is unaffected, as the claim
says). -/
theorem summary_extraction_keeps_prior_fields (d : PyVal)
    (pre post : List (String × (PyVal → Except PyErr PyVal)))
    (n : String) (f : PyVal → Except PyErr PyVal)
    (hsplit : summarySteps = pre ++ (n, f) :: post)
    (hpre : ∀ s ∈ pre, ∃ v, s.2 d = Except.ok v)
    (hf : f d = Except.error PyErr.keyError) :
    extractSummary d
      = .ok (pre.filterMap (fun s => (s.2 d).toOption.map (fun v => (s.1, v)))) := by
  unfold extractSummary
  rw [hsplit, runSuppress_pre d [] pre ((n, f) :: post) hpre]
  simp [runSuppressKeyError, hf]

/-- C5 (witness): the amended claim at `partialDct`, where the
`street_address` lookup succeeds and the `city` chain is the first to raise
`KeyError`. -/
theorem summary_extraction_keeps_prior_fields_witness :
    extractSummary partialDct = .ok [("street_address", PyVal.str "A")] := by
  have h := summary_extraction_keeps_prior_fields partialDct
    [("street_address", fun d => getKey d "name")]
    [("postal_code", fun d => getKey d "address" >>= fun v => getKey v "postalCode"),
     ("price", fun d =>
       getKey d "containsPlace" >>= fun v => getIdx v 0 >>= fun v =>
         getKey v "potentialAction" >>= fun v =>
           getKey v "priceSpecification" >>= fun v => getKey v "price"),
     ("longitude", fun d => getKey d "geo" >>= fun v => getKey v "longitude"),
     ("latitude", fun d => getKey d "geo" >>= fun v => getKey v "latitude"),
     ("rental_type", fun d =>
       getKey d "containsPlace" >>= fun v => getIdx v 0 >>= fun v => getKey v "@type")]
    "city" (fun d => getKey d "containedInPlace" >>= fun v => getKey v "name")
    rfl
    (by
      intro s hs
      rw [List.mem_singleton] at hs
      subst hs
      exact ⟨PyVal.str "A", rfl⟩)
    rfl
  exact h

/-- C6 (counterexample): a detail-page fetch that returns HTTP 500 appends
nothing to the error log and is not skipped — the body is parsed anyway —
contradicting the claim that every fetch error-logs and skips on
non-2xx. -/
theorem detail_non2xx_not_error_logged_cex :
    @detailFetchStep Unit (.ok ⟨500, ()⟩) "t" "u"
      = .ok ([requestLogLine "t" 500 "u"], [], false) :=
  rfl

/-- C6 (amended): only listing-page fetches get the error-log treatment: on
a status other than 200 one error-log line with the same
timestamp/status/url fields is appended besides the request-log line and
the page is skipped; a detail-page fetch appends only the request-log line
and its body is parsed regardless of status. -/
theorem fetch_logging_split (B : Type) (r : HttpResponse B) (t u : String)
    (h : r.status ≠ 200) :
    @pageFetchStep B (.ok r) t u
      = .ok ([requestLogLine t r.status u], [errorLogLine t r.status u], true) ∧
    @detailFetchStep B (.ok r) t u
      = .ok ([requestLogLine t r.status u], [], false) := by
  refine ⟨?_, rfl⟩
  simp [pageFetchStep, h]

/-- C6 (witness): the amended claim at a concrete 404 response. -/
theorem fetch_logging_split_witness :
    @pageFetchStep Unit (.ok ⟨404, ()⟩) "t" "u"
      = .ok ([requestLogLine "t" 404 "u"], [errorLogLine "t" 404 "u"], true) ∧
    @detailFetchStep Unit (.ok ⟨404, ()⟩) "t" "u"
      = .ok ([requestLogLine "t" 404 "u"], [], false) :=
  fetch_logging_split Unit ⟨404, ()⟩ "t" "u" (by decide)

/-- C7: every pair of successive grant times issued by the governor is
separated by at least the configured interval (default 5 seconds), the
governor serves every request (`acquire` never fails: one grant per
request), and it only delays (no grant precedes its request).  Both fetch
sites go through the single governed `make_get_request`. -/
theorem governor_grant_spacing (interval : ℚ) (reqs : List ℚ) :
    List.Chain' (fun a b => a + interval ≤ b) (grantTimes interval reqs) ∧
    (grantTimes interval reqs).length = reqs.length ∧
    List.Forall₂ (fun r g => r ≤ g) reqs (grantTimes interval reqs) := by
  refine ⟨?_, ?_, ?_⟩
  · cases reqs with
    | nil => exact List.chain'_nil
    | cons r rs => exact grantAux_chain interval r rs
  · cases reqs with
    | nil => rfl
    | cons r rs => simp [grantTimes, grantAux_length]
  · cases reqs with
    | nil => exact List.Forall₂.nil
    | cons r rs => exact List.Forall₂.cons le_rfl (grantAux_ge interval r rs)

/-- C8 (counterexample): a run producing one fully-populated record writes
the header in dict-insertion order — `street_address` first and
`description_text` before `year_built` and `parking_spots` — not the order
the claim states. -/
theorem header_order_cex :
    (runRows [(fullDct, ["window.x = 1;", fullText])]).map csvHeader
      = .ok "street_address,city,postal_code,price,longitude,latitude,rental_type,bedrooms,bathrooms,sqft,description_text,year_built,parking_spots" ∧
    "street_address,city,postal_code,price,longitude,latitude,rental_type,bedrooms,bathrooms,sqft,description_text,year_built,parking_spots"
      ≠ claimedHeader :=
  ⟨rfl, by decide⟩

/-- C8 (amended): the header columns are the record keys in first-appearance
order — for a fully-populated record: street_address, city, postal_code,
price, longitude, latitude, rental_type, bedrooms, bathrooms, sqft,
description_text, year_built, parking_spots — and a column appears exactly
when some record contains that field, so the header does depend on which
fields the records contain. -/
theorem header_is_first_appearance_key_order :
    ((runRows [(fullDct, ["window.x = 1;", fullText])]).map csvHeader
      = .ok "street_address,city,postal_code,price,longitude,latitude,rental_type,bedrooms,bathrooms,sqft,description_text,year_built,parking_spots") ∧
    (∀ (rows : List (List (String × PyVal))) (k : String),
      k ∈ dfColumns rows ↔ ∃ row ∈ rows, ∃ kv ∈ row, kv.1 = k) := by
  refine ⟨rfl, ?_⟩
  intro rows k
  unfold dfColumns
  rw [mem_foldl_addKeys]
  simp

/-- C9 (counterexample): a run that assembles zero records writes a file
whose header has no columns at all — pandas derives columns from the row
dict keys — not a header with the 13 defined columns. -/
theorem empty_run_header_cex :
    dfColumns [] = [] ∧ csvHeader [] = "" ∧ csvHeader [] ≠ claimedHeader :=
  ⟨rfl, rfl, by decide⟩

/-- C9 (amended): a run that assembles zero records (e.g. `num_pages = 0`,
the empty page range) still completes without raising — the process exits
0 — and still writes an output file, but that file has an empty header (no
columns) and no data rows, not a header row with the 13 defined columns. -/
theorem empty_run_succeeds_with_empty_header :
    pagesOf 0 = [] ∧ runRows [] = .ok [] ∧ dfColumns [] = [] ∧ csvHeader [] = "" :=
  ⟨rfl, rfl, rfl, rfl⟩

/-- C10: the bedrooms and bathrooms patterns capture only strings of the
shape single-digit followed by `.0`; in particular `"beds": 10.0` and
`"beds": 2` never match, and on a payload encoding 10 bedrooms the
`bedrooms` field is absent from `DetailFields`. -/
theorem beds_baths_single_digit_decimal_only :
    (∀ (text v : List Char), searchCapture bedsPat text = some v →
        ∃ c, c.isDigit = true ∧ v = [c, '.', '0']) ∧
    (∀ (text v : List Char), searchCapture bathsPat text = some v →
        ∃ c, c.isDigit = true ∧ v = [c, '.', '0']) ∧
    searchCapture bedsPat (litStr "\"beds\": 10.0") = none ∧
    searchCapture bedsPat (litStr "\"beds\": 2") = none ∧
    extractDetailFeatures (litStr "\"beds\": 10.0, \"baths\": 2.0") = [] := by
  refine ⟨?_, ?_, rfl, rfl, rfl⟩
  · intro text v h
    exact searchCapture_ddz (litStr "\"beds\": ") text v h
  · intro text v h
    exact searchCapture_ddz (litStr "\"baths\": ") text v h

/-- C10 (witness): the shape property applied to a concrete matching
payload. -/
theorem beds_baths_single_digit_decimal_only_witness :
    ∃ c, c.isDigit = true ∧ litStr "3.0" = [c, '.', '0'] :=
  beds_baths_single_digit_decimal_only.1 (litStr "\"beds\": 3.0") (litStr "3.0") rfl

end Scraper
